import Mathlib

/-!
Verification development for the DomainGuard event-driven alert and
auto-action engine.  The definitions below are a shallow embedding of the
JavaScript sources: `AlertService` and the alert model queries
(`src/services/alerts/alertService.js`, `src/database/models/alert.js`) and
`AutoActionsService` (auto-actions service module).  JavaScript `Map`s and
database tables are modelled as association lists, JavaScript numbers as
integers (every amount, price and cap in the claims is an integer, and
the additions and comparisons the code performs on them are exact in
binary64 floating point for these magnitudes), thrown
exceptions as `Except`/explicit outcome values, and the external
collaborators (user table, signer acquisition, transaction submission,
notifier) as explicit parameters holding the outcome the collaborator
returned.
-/

namespace DomainGuard

/-! ### Association-list maps (model of JS `Map` and keyed tables) -/

/-- Lookup in a string-keyed association list, as JS `map.get(k)`. -/
def mapGet (m : List (String × Int)) (k : String) : Option Int :=
  (m.find? (fun p => p.1 == k)).map (fun p => p.2)

/-- JS `map.set(k, v)`: replaces the binding if the key is present
(keys of a JS `Map` are unique), appends otherwise. -/
def mapSet : List (String × Int) → String → Int → List (String × Int)
  | [], k, v => [(k, v)]
  | p :: rest, k, v => if p.1 == k then (k, v) :: rest else p :: mapSet rest k v

/-- Lookup in a `Nat`-keyed counter list with default 0 (models a DB
counter column such as `triggerCount` / `executionCount`). -/
def countGet (m : List (Nat × Nat)) (k : Nat) : Nat :=
  match m.find? (fun p => p.1 == k) with
  | some p => p.2
  | none => 0

/-- Increment a `Nat`-keyed counter (models `SET c = c + 1 WHERE id = ?`;
a row absent from the association list counts as 0). -/
def countInc : List (Nat × Nat) → Nat → List (Nat × Nat)
  | [], k => [(k, 1)]
  | p :: rest, k => if p.1 == k then (k, p.2 + 1) :: rest else p :: countInc rest k

/-- Membership test for a timestamped lock table, as JS `map.has(k)`. -/
def locksHas (m : List (String × Nat)) (k : String) : Bool :=
  m.any (fun p => p.1 == k)

/-- JS `map.set(k, t)` on the lock table. -/
def locksSet : List (String × Nat) → String → Nat → List (String × Nat)
  | [], k, t => [(k, t)]
  | p :: rest, k, t => if p.1 == k then (k, t) :: rest else p :: locksSet rest k t

/-! ### Mini regular-expression engine

The sources build JS `RegExp` values from user patterns in two ways:

* `getAlertsByPattern` (alert model): SQL-LIKE conversion
  `pattern.replace(/%/g, '.*').replace(/_/g, '.')`, wrapped in `^...$`
  with the `i` flag, inside `try/catch` (an invalid pattern is treated
  as non-matching);
* `shouldTriggerSaleAlert` / `shouldExecuteAutoPurchase`:
  `new RegExp(pattern.replace(/\*/g, '.*'), 'i')` — unanchored
  `regex.test(domain)`.

We model the regex fragment these conversions can produce from the
patterns of the claims: literal characters, `.` (any character) and a
postfix `*` on the previous atom.  A `*` with nothing to repeat makes
the pattern invalid, exactly as `new RegExp` raises a `SyntaxError`
(which `getAlertsByPattern` catches, treating the rule as non-matching).
Case-insensitivity (`i` flag) is modelled by lowercasing pattern
literals and subject characters.  Matching uses an explicit fuel
argument (bounded by pattern length + subject length) so that all
definitions compute by kernel reduction; the fuel is always sufficient.
-/

/-- One regex atom: `.` (any character) or a literal character. -/
inductive RAtom where
  | anyChar : RAtom
  | lit : Char → RAtom
deriving DecidableEq, Repr

/-- A regex piece: an atom, possibly starred. -/
structure RPiece where
  atom : RAtom
  starred : Bool
deriving DecidableEq, Repr

/-- Does an atom match one subject character (subject lowercased)? -/
def ratomMatch : RAtom → Char → Bool
  | RAtom.anyChar, _ => true
  | RAtom.lit c, d => c == d.toLower

/-- Parse the character list of a compiled pattern into pieces.
`*` stars the preceding atom; `*` at the start or after another `*`
yields `none` (JS `SyntaxError: nothing to repeat`).  Literals are
lowercased (the `i` flag). -/
def parseRegexAux : List Char → List RPiece → Option (List RPiece)
  | [], acc => some acc.reverse
  | c :: rest, acc =>
    if c == '*' then
      match acc with
      | [] => none
      | p :: ps => if p.starred then none else parseRegexAux rest ({ p with starred := true } :: ps)
    else if c == '.' then
      parseRegexAux rest (⟨RAtom.anyChar, false⟩ :: acc)
    else
      parseRegexAux rest (⟨RAtom.lit c.toLower, false⟩ :: acc)

/-- Parse a full compiled pattern. -/
def parseRegex (cs : List Char) : Option (List RPiece) :=
  parseRegexAux cs []

/-- Anchored (whole-string) matching with fuel. -/
def rmatchFuel : Nat → List RPiece → List Char → Bool
  | 0, _, _ => false
  | _ + 1, [], s => s.isEmpty
  | fuel + 1, p :: ps, s =>
    if p.starred then
      rmatchFuel fuel ps s ||
        (match s with
         | [] => false
         | c :: cs => ratomMatch p.atom c && rmatchFuel fuel (p :: ps) cs)
    else
      match s with
      | [] => false
      | c :: cs => ratomMatch p.atom c && rmatchFuel fuel ps cs

/-- Anchored match (model of `^pattern$`.test, `i` flag applied). -/
def rmatchAll (r : List RPiece) (s : List Char) : Bool :=
  rmatchFuel (r.length + s.length + 1) r s

/-- Match of some initial segment of the subject, with fuel. -/
def rmatchHeadFuel : Nat → List RPiece → List Char → Bool
  | 0, _, _ => false
  | _ + 1, [], _ => true
  | fuel + 1, p :: ps, s =>
    if p.starred then
      rmatchHeadFuel fuel ps s ||
        (match s with
         | [] => false
         | c :: cs => ratomMatch p.atom c && rmatchHeadFuel fuel (p :: ps) cs)
    else
      match s with
      | [] => false
      | c :: cs => ratomMatch p.atom c && rmatchHeadFuel fuel ps cs

/-- Unanchored search (model of JS `regex.test` without anchors): the
pattern matches starting at some position of the subject. -/
def rsearchFuel : Nat → List RPiece → List Char → Bool
  | 0, _, _ => false
  | fuel + 1, r, s =>
    rmatchHeadFuel (r.length + s.length + 1) r s ||
      (match s with
       | [] => false
       | _ :: cs => rsearchFuel fuel r cs)

/-- Unanchored test. -/
def rsearch (r : List RPiece) (s : List Char) : Bool :=
  rsearchFuel (s.length + 1) r s

/-- SQL-LIKE conversion of `getAlertsByPattern`:
`%` becomes `.*`, `_` becomes `.`; every other character is kept. -/
def likeExpand (cs : List Char) : List Char :=
  cs.flatMap (fun c =>
    if c == '%' then ['.', '*'] else if c == '_' then ['.'] else [c])

/-- The matcher `getAlertsByPattern` applies to each stored
`domainPattern`: LIKE-convert, compile `^...$` with the `i` flag; a
pattern that fails to compile is non-matching (the `catch` branch). -/
def likeTest (pattern domain : String) : Bool :=
  match parseRegex (likeExpand pattern.data) with
  | none => false
  | some r => rmatchAll r domain.data

/-- The matcher of `shouldTriggerSaleAlert` / `shouldExecuteAutoPurchase`
for `conditions.domainPatterns`: `*` becomes `.*`, compiled with the `i`
flag and tested unanchored.  After this conversion every `*` in the
compiled text follows a `.`, so compilation cannot fail on the fragment
we model; a failing parse is mapped to `false`. -/
def starTest (pattern domain : String) : Bool :=
  match parseRegex ((pattern.data).flatMap
      (fun c => if c == '*' then ['.', '*'] else [c])) with
  | none => false
  | some r => rsearch r domain.data

/-! ### Truthiness helpers

JavaScript condition fields come out of `JSON.parse` and are guarded by
truthiness checks (`if (conditions.maxPrice && ...)`): an absent field,
`0`, or the empty string is falsy. -/

/-- Truthiness of an optional JS number. -/
def qTruthy : Option Int → Bool
  | none => false
  | some v => !(v == 0)

/-- Truthiness of an optional JS integer. -/
def iTruthy : Option Int → Bool
  | none => false
  | some v => !(v == 0)

/-- Truthiness of an optional JS string. -/
def sTruthy : Option String → Bool
  | none => false
  | some s => !(s == "")

/-! ### Data model -/

/-- A row of the `users` table (the fields the engine reads). -/
structure User where
  id : Nat
  subscriptionTier : String
  monthlySpendLimit : Option Int
  walletAddress : Option String
  isActive : Bool
deriving DecidableEq, Repr

/-- `getUserById` against an in-memory users table. -/
def getUserById (users : List User) (uid : Nat) : Option User :=
  users.find? (fun u => u.id == uid)

/-- Parsed `conditions` blob of an AlertRule (kind-specific fields,
absent fields are `none`). -/
structure AlertConditions where
  daysThreshold : Option Int := none
  minUrgency : Option String := none
  maxPrice : Option Int := none
  minPrice : Option Int := none
  saleTypes : Option (List String) := none
  domainPatterns : Option (List String) := none
deriving DecidableEq, Repr

/-- A row of the `alerts` table. -/
structure AlertRow where
  id : Nat
  userId : Nat
  type : String
  domain : Option String
  domainPattern : Option String
  conditions : AlertConditions
  platform : String
  isActive : Bool
deriving DecidableEq, Repr

/-- A normalized expiry `DomainEvent` as consumed by the Alert
Dispatcher (`event.blockData.transactionHash` flattened to `txHash`). -/
structure ExpiryEvent where
  txHash : String
  domain : String
  daysUntilExpiry : Int
  urgency : Option String
deriving DecidableEq, Repr

/-- The `alertData` record `processExpiryEvent` passes to `sendAlert`. -/
structure AlertData where
  type : String
  alertId : Nat
  userId : Nat
  domain : String
  daysUntilExpiry : Int
  urgency : Option String
  platform : String
deriving DecidableEq, Repr

/-- A row of the `alert_logs` table (delivery log). -/
structure AlertLogRow where
  alertId : Nat
  userId : Nat
  eventType : String
  status : String
  platform : String
deriving DecidableEq, Repr

/-- Mutable state of `AlertService` plus the tables it writes:
the `processedEvents` dedup window (insertion-ordered), the alerts
emitted to the Notifier sink, the `alert_logs` table, and the per-rule
`triggerCount` column. -/
structure ASState where
  processedEvents : List String
  dispatches : List AlertData
  alertLogs : List AlertLogRow
  triggerCounts : List (Nat × Nat)
deriving DecidableEq, Repr

/-! ### Alert model queries (`src/database/models/alert.js`) -/

/-- `getAlertsByDomain(domain, type)`:
`WHERE isActive = 1 AND (domain = ? OR domainPattern = ?) AND type = ?`. -/
def getAlertsByDomain (table : List AlertRow) (domain ty : String) : List AlertRow :=
  table.filter (fun a =>
    a.isActive && (a.domain == some domain || a.domainPattern == some domain) && a.type == ty)

/-- `getAlertsByPattern(domain, type)`: SQL selects active rows with a
non-null `domainPattern` of the requested type; the rows are then
filtered client-side with the LIKE-converted anchored case-insensitive
regex (`likeTest`), a non-compiling pattern counting as non-matching. -/
def getAlertsByPattern (table : List AlertRow) (domain ty : String) : List AlertRow :=
  (table.filter (fun a => a.isActive && a.domainPattern.isSome && a.type == ty)).filter
    (fun a =>
      match a.domainPattern with
      | none => false
      | some p => likeTest p domain)

/-! ### Alert Dispatcher (`AlertService`) -/

/-- Ordinal urgency scale `{low: 0, medium: 1, high: 2, critical: 3}`;
an unknown or absent urgency falls back to 0 (`urgencyLevels[u] || 0`). -/
def urgencyLevel : Option String → Nat
  | some s =>
    if s == "medium" then 1
    else if s == "high" then 2
    else if s == "critical" then 3
    else 0
  | none => 0

/-- `shouldTriggerExpiryAlert`: days-threshold and minimum-urgency
checks, each guarded by truthiness of the condition field. -/
def shouldTriggerExpiryAlert (c : AlertConditions) (ev : ExpiryEvent) : Bool :=
  if iTruthy c.daysThreshold && decide (ev.daysUntilExpiry > c.daysThreshold.getD 0) then
    false
  else if sTruthy c.minUrgency && decide (urgencyLevel ev.urgency < urgencyLevel c.minUrgency) then
    false
  else
    true

/-- `shouldTriggerSaleAlert` applied to a sale event with price
`price`, sale type `saleTy` and domain `domain`. -/
def shouldTriggerSaleAlert (c : AlertConditions) (price : Int) (saleTy domain : String) : Bool :=
  if qTruthy c.maxPrice && decide (price > c.maxPrice.getD 0) then false
  else if qTruthy c.minPrice && decide (price < c.minPrice.getD 0) then false
  else if c.saleTypes.isSome && !((c.saleTypes.getD []).contains saleTy) then false
  else if c.domainPatterns.isSome && !((c.domainPatterns.getD []).any (fun p => starTest p domain)) then false
  else true

/-- `checkAlertFrequency`: free-tier users only receive immediate
delivery when the alert's urgency is exactly `critical`; other tiers
always pass. -/
def checkAlertFrequency (u : User) (urgency : Option String) : Bool :=
  if u.subscriptionTier == "free" then
    if !(urgency == some "critical") then false else true
  else true

/-- `sendAlert`: looks up the user (outcome `userRes`), drops the alert
for a missing or inactive user, applies the frequency gate, then emits
to the Notifier (`notifierOk` is the hand-off outcome) and appends a
delivery-log row: `sent` on success, `failed` when the hand-off threw
(`dbOk` is the outcome of the database insert; when it is `false` the
catch-path insert fails as well and nothing is logged).  The function
never throws: its body is one `try/catch`. -/
def sendAlert (userRes : Option User) (notifierOk dbOk : Bool) (d : AlertData)
    (s : ASState) : ASState :=
  match userRes with
  | none => s
  | some u =>
    if !u.isActive then s
    else if !(checkAlertFrequency u d.urgency) then s
    else if notifierOk then
      let s1 := { s with dispatches := s.dispatches ++ [d] }
      if dbOk then
        { s1 with alertLogs := s1.alertLogs ++ [⟨d.alertId, d.userId, d.type, "sent", d.platform⟩] }
      else s1
    else
      if dbOk then
        { s with alertLogs := s.alertLogs ++ [⟨d.alertId, d.userId, d.type, "failed", d.platform⟩] }
      else s

/-- The `alertData` record built for an expiry alert. -/
def expiryAlertData (a : AlertRow) (ev : ExpiryEvent) : AlertData :=
  { type := "expiry", alertId := a.id, userId := a.userId, domain := ev.domain,
    daysUntilExpiry := ev.daysUntilExpiry, urgency := ev.urgency, platform := a.platform }

/-- Body of the per-alert loop of `processExpiryEvent`: if the rule's
conditions pass, send the alert and then increment its trigger count.
The increment runs unconditionally after `sendAlert` returns, and
`sendAlert` never throws, so it happens whether or not anything was
delivered. -/
def handleExpiryAlert (users : List User) (notifierOk dbOk : Bool) (ev : ExpiryEvent)
    (s : ASState) (a : AlertRow) : ASState :=
  if shouldTriggerExpiryAlert a.conditions ev then
    let s1 := sendAlert (getUserById users a.userId) notifierOk dbOk (expiryAlertData a ev) s
    { s1 with triggerCounts := countInc s1.triggerCounts a.id }
  else s

/-- Dedup-window cleanup: once the window holds more than 1000 keys,
everything but the last 900 is deleted. -/
def cleanupProcessed (l : List String) : List String :=
  if l.length > 1000 then l.drop (l.length - 900) else l

/-- `processExpiryEvent`: dedup check on `txHash + "-expiry"`, direct and
pattern rule queries, per-rule dispatch loop, then insertion of the
dedup key followed by window cleanup. -/
def processExpiryEvent (table : List AlertRow) (users : List User)
    (notifierOk dbOk : Bool) (ev : ExpiryEvent) (s : ASState) : ASState :=
  let eventId := ev.txHash ++ "-expiry"
  if s.processedEvents.contains eventId then s
  else
    let directAlerts := getAlertsByDomain table ev.domain "expiry"
    let patternAlerts := getAlertsByPattern table ev.domain "expiry"
    let allAlerts := directAlerts ++ patternAlerts
    let s1 := allAlerts.foldl (handleExpiryAlert users notifierOk dbOk ev) s
    { s1 with processedEvents := cleanupProcessed (s1.processedEvents ++ [eventId]) }

/-! ### Auto-Action Engine (`AutoActionsService`)

`executeAutoRenewal` and `executeAutoPurchase` both have the shape
`try { const actionKey = ...; ... } catch (error) { ... } finally {
this.activeActions.delete(actionKey); }`.  `actionKey` is declared with
`const` inside the `try` block, so it is *not in scope* in the `finally`
block: evaluating `actionKey` there raises
`ReferenceError: actionKey is not defined` (ES modules run in strict
mode, and reading an undeclared identifier throws in sloppy mode too).
Consequently the `finally` clause never reaches the `delete` call — the
lock entry is never removed — and every call of these two functions,
on every path (skip, success, business abort, submission failure),
rejects with that `ReferenceError` after the `try`/`catch` work is done.
The callers (`checkAutoRenewal` / `checkAutoPurchase`) await the call
inside a per-action `try/catch`, so the rejection is caught and logged
there.  The embedding returns the `JsOutcome` of the call alongside the
state reached by the `try`/`catch` work. -/

/-- Result of an awaited transaction submission
(`domainService.renewDomain` / `buyDomain`). -/
structure TxResult where
  transactionHash : String
deriving DecidableEq, Repr

/-- How a call to `executeAutoRenewal` / `executeAutoPurchase`
terminates: normally, or rejecting with the `ReferenceError` raised by
the `finally` block's out-of-scope `actionKey`. -/
inductive JsOutcome where
  | ok : JsOutcome
  | refErrorActionKey : JsOutcome
deriving DecidableEq, Repr

/-- A row of the `auto_action_logs` table (the columns the `INSERT` in
`logAutoAction` writes). -/
structure AALogRow where
  actionId : Nat
  userId : Nat
  domain : String
  amount : Int
  transactionHash : Option String
  status : String
  errorMessage : Option String
deriving DecidableEq, Repr

/-- Events emitted by the engine for bot adapters
(`autoActionExecuted` / `autoActionFailed`). -/
inductive AAEvent where
  | executed (type : String) (userId : Nat) (domain : String) (txHash : String)
  | failed (type : String) (userId : Nat) (domain : String) (error : String)
deriving DecidableEq, Repr

/-- Parsed `conditions` blob of an AutoActionRule. -/
structure AAConditions where
  daysBeforeExpiry : Option Int := none
  minUrgency : Option String := none
  maxPrice : Option Int := none
  minPrice : Option Int := none
  domainPatterns : Option (List String) := none
  targetDomains : Option (List String) := none
  excludeSellers : Option (List String) := none
  renewalDuration : Option Nat := none
deriving DecidableEq, Repr

/-- A row of the `auto_actions` table (joined with the owner id). -/
structure AutoAction where
  id : Nat
  userId : Nat
  type : String
  conditions : AAConditions
  maxAmount : Int
  isActive : Bool
deriving DecidableEq, Repr

/-- A `domainSale` event as consumed by the auto-purchase path. -/
structure AutoSaleEvent where
  type : String
  domain : String
  price : Int
  seller : Option String
deriving DecidableEq, Repr

/-- A `domainExpiry` event as consumed by the auto-renewal path. -/
structure AutoExpiryEvent where
  domain : String
  daysUntilExpiry : Int
  owner : Option String
  urgency : Option String
deriving DecidableEq, Repr

/-- Mutable state of `AutoActionsService` plus the tables it writes:
the `activeActions` in-flight lock map (key → start time), the
`monthlySpending` ledger (key `userId_month` → committed amount), the
`auto_action_logs` table, the per-rule `executionCount` column, and the
events emitted to subscribers. -/
structure AAState where
  activeActions : List (String × Nat)
  monthlySpending : List (String × Int)
  actionLogs : List AALogRow
  executionCounts : List (Nat × Nat)
  emitted : List AAEvent
deriving DecidableEq, Repr

/-- Spending-ledger key: `` `${userId}_${currentMonth}` ``. -/
def spendKey (userId : Nat) (month : String) : String :=
  toString userId ++ "_" ++ month

/-- Committed spend of a user for a month (`map.get(key) || 0`). -/
def monthSpent (spending : List (String × Int)) (userId : Nat) (month : String) : Int :=
  (mapGet spending (spendKey userId month)).getD 0

/-- The cap used by `checkSpendingLimits`:
`user.monthlySpendLimit || 200` (absent or `0` falls back to 200). -/
def effectiveMonthlyLimit (u : User) : Int :=
  match u.monthlySpendLimit with
  | none => 200
  | some l => if l == 0 then 200 else l

/-- `checkSpendingLimits(userId, amount)`: looks the user up
(`userRes` is the outcome of that lookup), reads the ledger entry for
the current month and returns
`currentSpending + amount <= monthlyLimit`.  The whole body is inside
`try/catch { return false }`, so a throwing lookup — or a `null` user,
whose `monthlySpendLimit` read raises a `TypeError` — yields `false`:
the check fails closed. -/
def checkSpendingLimits (userRes : Except String (Option User)) (userId : Nat)
    (month : String) (amount : Int) (spending : List (String × Int)) : Bool :=
  match userRes with
  | Except.error _ => false
  | Except.ok none => false
  | Except.ok (some u) =>
    let monthlyLimit := effectiveMonthlyLimit u
    let currentSpending := monthSpent spending userId month
    decide (currentSpending + amount ≤ monthlyLimit)

/-- `trackSpending(userId, amount)`: adds `amount` to the ledger entry
of the current month.  (The companion `transaction_logs` insert has its
own `try/catch` and does not affect engine state; it is elided.) -/
def trackSpending (userId : Nat) (month : String) (amount : Int) (s : AAState) : AAState :=
  let key := spendKey userId month
  let currentSpending := (mapGet s.monthlySpending key).getD 0
  { s with monthlySpending := mapSet s.monthlySpending key (currentSpending + amount) }

/-- `getUserSigner(user)`: the shipped implementation unconditionally
throws (the comment above it promises a mock signer, but the body is a
single `throw`). -/
def getUserSigner : Except String Unit :=
  Except.error "Wallet integration not implemented - requires user signature"

/-- Lock key of an auto-purchase: `` `purchase_${action.id}_${event.domain}` ``. -/
def purchaseLockKey (action : AutoAction) (domain : String) : String :=
  "purchase_" ++ toString action.id ++ "_" ++ domain

/-- Lock key of an auto-renewal: `` `renewal_${action.id}_${event.domain}` ``. -/
def renewalLockKey (action : AutoAction) (domain : String) : String :=
  "renewal_" ++ toString action.id ++ "_" ++ domain

/-- The synchronous prefix of both execute functions: `if
(this.activeActions.has(actionKey)) return; this.activeActions.set(
actionKey, { startTime: Date.now(), ... })`.  There is no `await`
between the `has` check and the `set`, so in the single-threaded event
loop this check-and-set is atomic. -/
def tryAcquire (key : String) (now : Nat) (s : AAState) : Bool × AAState :=
  if locksHas s.activeActions key then (false, s)
  else (true, { s with activeActions := locksSet s.activeActions key now })

/-- The `catch` block shared in shape by both execute functions: append
a failed `auto_action_logs` row (amount 0, no transaction hash) and emit
`autoActionFailed`. -/
def executeCatch (emitType : String) (action : AutoAction) (domain : String)
    (errMsg : String) (s : AAState) : AAState :=
  let s1 := { s with actionLogs := s.actionLogs ++
      [AALogRow.mk action.id action.userId domain 0 none "failed" (some errMsg)] }
  { s1 with emitted := s1.emitted ++ [AAEvent.failed emitType action.userId domain errMsg] }

/-- The `try`-block steps of `executeAutoPurchase` after the lock is
installed: spending-limit check (abort throws `Monthly spending limit
exceeded`), signer acquisition (outcome `signerRes`), purchase
submission (outcome `buyRes`); on success track spending, append a
success log row, bump `executionCount` and emit `autoActionExecuted`.
Thrown errors land in the `catch` block (`executeCatch`). -/
def purchaseBody (action : AutoAction) (ev : AutoSaleEvent)
    (userRes : Except String (Option User)) (signerRes : Except String Unit)
    (buyRes : Except String TxResult) (month : String) (s : AAState) : AAState :=
  let purchaseAmount := ev.price
  if !(checkSpendingLimits userRes action.userId month purchaseAmount s.monthlySpending) then
    executeCatch "purchase" action ev.domain "Monthly spending limit exceeded" s
  else
    match signerRes with
    | Except.error e => executeCatch "purchase" action ev.domain e s
    | Except.ok _ =>
      match buyRes with
      | Except.error e => executeCatch "purchase" action ev.domain e s
      | Except.ok tx =>
        let s1 := trackSpending action.userId month purchaseAmount s
        let s2 := { s1 with actionLogs := s1.actionLogs ++
            [AALogRow.mk action.id action.userId ev.domain purchaseAmount
              (some tx.transactionHash) "success" none] }
        let s3 := { s2 with executionCounts := countInc s2.executionCounts action.id }
        { s3 with emitted := s3.emitted ++
            [AAEvent.executed "purchase" action.userId ev.domain tx.transactionHash] }

/-- `executeAutoPurchase(action, event)`.  If the lock is already held
the `try` block returns early (no state change, nothing logged); the
`finally` block then raises the out-of-scope `ReferenceError`, so the
call always terminates with `JsOutcome.refErrorActionKey` and the lock
(whether pre-existing or freshly installed) is never deleted. -/
def executeAutoPurchase (action : AutoAction) (ev : AutoSaleEvent)
    (userRes : Except String (Option User)) (signerRes : Except String Unit)
    (buyRes : Except String TxResult) (month : String) (now : Nat)
    (s : AAState) : AAState × JsOutcome :=
  let actionKey := purchaseLockKey action ev.domain
  match tryAcquire actionKey now s with
  | (false, s1) => (s1, JsOutcome.refErrorActionKey)
  | (true, s1) =>
    (purchaseBody action ev userRes signerRes buyRes month s1, JsOutcome.refErrorActionKey)

/-- The `try`-block steps of `executeAutoRenewal` after the lock is
installed: spending-limit check against `action.maxAmount`, signer
acquisition, renewal submission (outcome `renewRes`); on success track
`action.maxAmount`, append a success log row, bump `executionCount` and
emit `autoActionExecuted`. -/
def renewalBody (action : AutoAction) (ev : AutoExpiryEvent)
    (userRes : Except String (Option User)) (signerRes : Except String Unit)
    (renewRes : Except String TxResult) (month : String) (s : AAState) : AAState :=
  if !(checkSpendingLimits userRes action.userId month action.maxAmount s.monthlySpending) then
    executeCatch "renewal" action ev.domain "Monthly spending limit exceeded" s
  else
    match signerRes with
    | Except.error e => executeCatch "renewal" action ev.domain e s
    | Except.ok _ =>
      match renewRes with
      | Except.error e => executeCatch "renewal" action ev.domain e s
      | Except.ok tx =>
        let s1 := trackSpending action.userId month action.maxAmount s
        let s2 := { s1 with actionLogs := s1.actionLogs ++
            [AALogRow.mk action.id action.userId ev.domain action.maxAmount
              (some tx.transactionHash) "success" none] }
        let s3 := { s2 with executionCounts := countInc s2.executionCounts action.id }
        { s3 with emitted := s3.emitted ++
            [AAEvent.executed "renewal" action.userId ev.domain tx.transactionHash] }

/-- `executeAutoRenewal(action, event)`, with the same skip/lock/finally
behaviour as `executeAutoPurchase`. -/
def executeAutoRenewal (action : AutoAction) (ev : AutoExpiryEvent)
    (userRes : Except String (Option User)) (signerRes : Except String Unit)
    (renewRes : Except String TxResult) (month : String) (now : Nat)
    (s : AAState) : AAState × JsOutcome :=
  let actionKey := renewalLockKey action ev.domain
  match tryAcquire actionKey now s with
  | (false, s1) => (s1, JsOutcome.refErrorActionKey)
  | (true, s1) =>
    (renewalBody action ev userRes signerRes renewRes month s1, JsOutcome.refErrorActionKey)

/-- `shouldExecuteAutoRenewal(conditions, event)`. -/
def shouldExecuteAutoRenewal (c : AAConditions) (ev : AutoExpiryEvent) : Bool :=
  if iTruthy c.daysBeforeExpiry && decide (ev.daysUntilExpiry > c.daysBeforeExpiry.getD 0) then
    false
  else if sTruthy c.minUrgency && decide (urgencyLevel ev.urgency < urgencyLevel c.minUrgency) then
    false
  else
    true

/-- `shouldExecuteAutoPurchase(action, event)`: price against
`maxAmount` and the optional `maxPrice`/`minPrice` bounds, then the
domain-pattern, target-domain and seller-exclusion conditions. -/
def shouldExecuteAutoPurchase (action : AutoAction) (ev : AutoSaleEvent) : Bool :=
  let c := action.conditions
  let priceNum := ev.price
  if decide (priceNum > action.maxAmount) then false
  else if qTruthy c.maxPrice && decide (priceNum > c.maxPrice.getD 0) then false
  else if qTruthy c.minPrice && decide (priceNum < c.minPrice.getD 0) then false
  else if c.domainPatterns.isSome
      && !((c.domainPatterns.getD []).any (fun p => starTest p ev.domain)) then false
  else if c.targetDomains.isSome && !((c.targetDomains.getD []).contains ev.domain) then false
  else if c.excludeSellers.isSome
      && (match ev.seller with
          | some sel => (c.excludeSellers.getD []).contains sel.toLower
          | none => false) then false
  else true

/-- Per-action outcome recorded by the `checkAuto*` dispatch loops. -/
inductive RuleOutcome where
  | skippedNotPremium
  | skippedNotOwner
  | conditionsFail
  | caughtError (msg : String)
deriving DecidableEq, Repr

/-- Message with which a `JsOutcome` surfaces in the caller's
per-action `catch`. -/
def outcomeCaught : JsOutcome → RuleOutcome
  | JsOutcome.ok => RuleOutcome.caughtError ""
  | JsOutcome.refErrorActionKey => RuleOutcome.caughtError "actionKey is not defined"

/-- One iteration of the `checkAutoRenewal(event)` per-rule loop:
premium check, on-chain-owner check (`user.walletAddress?.toLowerCase()
!== owner?.toLowerCase()`), condition check, then `executeAutoRenewal`.
The whole body sits inside the loop's `try/catch`, so an error thrown
for this rule — including the `ReferenceError` every execution rejects
with — becomes a logged `RuleOutcome.caughtError` rather than an
exception of the loop. -/
def renewalStep (users : List User) (ev : AutoExpiryEvent)
    (signerRes : Except String Unit) (renewRes : Except String TxResult)
    (month : String) (now : Nat) (s : AAState) (action : AutoAction) :
    AAState × RuleOutcome :=
  match getUserById users action.userId with
  | none => (s, RuleOutcome.skippedNotPremium)
  | some u =>
    if u.subscriptionTier != "premium" then
      (s, RuleOutcome.skippedNotPremium)
    else if (u.walletAddress.map String.toLower) != (ev.owner.map String.toLower) then
      (s, RuleOutcome.skippedNotOwner)
    else if shouldExecuteAutoRenewal action.conditions ev then
      ((executeAutoRenewal action ev (Except.ok (getUserById users action.userId))
          signerRes renewRes month now s).1,
       outcomeCaught (executeAutoRenewal action ev (Except.ok (getUserById users action.userId))
          signerRes renewRes month now s).2)
    else
      (s, RuleOutcome.conditionsFail)

/-- A `for`-loop whose body is a `try/catch`-guarded step: every element
is visited and contributes exactly one outcome; no outcome stops the
fold. -/
def accumFold (step : AAState → α → AAState × RuleOutcome) (s : AAState)
    (l : List α) : AAState × List RuleOutcome :=
  l.foldl (fun acc a => ((step acc.1 a).1, acc.2 ++ [(step acc.1 a).2])) (s, [])

/-- `checkAutoRenewal(event)`: the per-rule loop over the matching
renewal rules. -/
def checkAutoRenewal (users : List User) (ev : AutoExpiryEvent)
    (actions : List AutoAction) (signerRes : Except String Unit)
    (renewRes : Except String TxResult) (month : String) (now : Nat)
    (s : AAState) : AAState × List RuleOutcome :=
  accumFold (renewalStep users ev signerRes renewRes month now) s actions

/-- One iteration of the `checkAutoBid(event)` per-rule loop: the class
defines neither `shouldExecuteAutoBid` nor `executeAutoBid`, so after
the premium check the call `this.shouldExecuteAutoBid(action, event)`
raises a `TypeError`, caught by the per-rule `catch`. -/
def bidStep (users : List User) (s : AAState) (action : AutoAction) :
    AAState × RuleOutcome :=
  match getUserById users action.userId with
  | none => (s, RuleOutcome.skippedNotPremium)
  | some u =>
    if u.subscriptionTier != "premium" then
      (s, RuleOutcome.skippedNotPremium)
    else
      (s, RuleOutcome.caughtError "this.shouldExecuteAutoBid is not a function")

/-- `checkAutoBid(event)`: the per-rule loop over the matching bid
rules. -/
def checkAutoBid (users : List User) (actions : List AutoAction)
    (s : AAState) : AAState × List RuleOutcome :=
  accumFold (bidStep users) s actions

/-! ### Concrete fixtures

Named inputs used to evaluate the embedded code at the concrete
scenarios of the specification (premium owner with cap 200, the
`*.ape` buy rule, the `nft.ape` listing at 45, a free-tier owner with a
medium-urgency event, and so on). -/

/-- Engine state at service start: every map empty. -/
def aaInit : AAState :=
  { activeActions := [], monthlySpending := [], actionLogs := [],
    executionCounts := [], emitted := [] }

/-- Dispatcher state at service start. -/
def asInit : ASState :=
  { processedEvents := [], dispatches := [], alertLogs := [], triggerCounts := [] }

/-- Premium-tier owner, monthly cap 200. -/
def premiumOwner : User :=
  { id := 1, subscriptionTier := "premium", monthlySpendLimit := some 200,
    walletAddress := some "0xabc", isActive := true }

/-- Free-tier owner. -/
def freeOwner : User :=
  { id := 2, subscriptionTier := "free", monthlySpendLimit := none,
    walletAddress := none, isActive := true }

/-- Basic-tier owner. -/
def basicOwner : User :=
  { id := 3, subscriptionTier := "basic", monthlySpendLimit := none,
    walletAddress := none, isActive := true }

/-- AutoActionRule of the end-to-end purchase scenario:
kind `buy`, `conditions = {maxPrice: 50, domainPatterns: ["*.ape"]}`,
`maxAmount = 50`, owned by the premium owner. -/
def buyRule : AutoAction :=
  { id := 7, userId := 1, type := "buy",
    conditions := { maxPrice := some 50, domainPatterns := some ["*.ape"] },
    maxAmount := 50, isActive := true }

/-- `Listed` event for `nft.ape` at price 45. -/
def listedApe : AutoSaleEvent :=
  { type := "listing", domain := "nft.ape", price := 45, seller := some "0xseller" }

/-- `Listed` event for `nft.ape` at price 60. -/
def listedSixty : AutoSaleEvent :=
  { type := "listing", domain := "nft.ape", price := 60, seller := none }

/-- `Listed` event for `nft.ape` at price 40. -/
def listedForty : AutoSaleEvent :=
  { type := "listing", domain := "nft.ape", price := 40, seller := none }

/-- Engine state in which the premium owner has already committed 150
in month `2026-10`. -/
def spentOneFifty : AAState :=
  { aaInit with monthlySpending := [("1_2026-10", 150)] }

/-- Engine state in which the purchase lock for rule 7 on `nft.ape` is
already in flight. -/
def lockedPurchase : AAState :=
  { spentOneFifty with activeActions := [("purchase_7_nft.ape", 5)] }

/-- An expiry AlertRule whose `domainPattern` is the literal domain
`web3.ape` (no wildcard). -/
def patternEqAlert : AlertRow :=
  { id := 1, userId := 1, type := "expiry", domain := none,
    domainPattern := some "web3.ape", conditions := {}, platform := "telegram",
    isActive := true }

/-- High-urgency expiry event for `web3.ape`. -/
def expiringApe : ExpiryEvent :=
  { txHash := "0xh", domain := "web3.ape", daysUntilExpiry := 3, urgency := some "high" }

/-- An expiry AlertRule on the exact domain `web3.ape`, owned by the
free-tier owner. -/
def freeUserAlert : AlertRow :=
  { id := 9, userId := 2, type := "expiry", domain := some "web3.ape",
    domainPattern := none, conditions := {}, platform := "telegram", isActive := true }

/-- Medium-urgency expiry event for `web3.ape`. -/
def mediumExpiring : ExpiryEvent :=
  { txHash := "0xm", domain := "web3.ape", daysUntilExpiry := 3, urgency := some "medium" }

/-- Critical-urgency expiry event for `web3.ape`. -/
def criticalExpiring : ExpiryEvent :=
  { txHash := "0xc", domain := "web3.ape", daysUntilExpiry := 1, urgency := some "critical" }

/-- An expiry AlertRow owned by the basic-tier owner. -/
def basicUserAlert : AlertRow :=
  { id := 11, userId := 3, type := "expiry", domain := some "web3.ape",
    domainPattern := none, conditions := {}, platform := "telegram", isActive := true }

/-- Expiry event on the auto-action side, for the renewal lock
scenarios: the premium owner's own domain. -/
def renewApe : AutoExpiryEvent :=
  { domain := "web3.ape", daysUntilExpiry := 3, owner := some "0xabc",
    urgency := some "high" }

/-! ### Basic lemmas about the state operations -/

theorem mapGet_mapSet_self (m : List (String × Int)) (k : String) (v : Int) :
    mapGet (mapSet m k v) k = some v := by
  induction m with
  | nil => simp [mapGet, mapSet, List.find?]
  | cons p rest ih =>
    by_cases h : p.1 == k
    · simp [mapGet, mapSet, h, List.find?]
    · simpa [mapGet, mapSet, h, List.find?] using ih

theorem locksHas_locksSet_self (m : List (String × Nat)) (k : String) (t : Nat) :
    locksHas (locksSet m k t) k = true := by
  induction m with
  | nil => simp [locksHas, locksSet]
  | cons p rest ih =>
    by_cases h : p.1 == k
    · simp [locksHas, locksSet, h]
    · simpa [locksHas, locksSet, h] using ih

theorem countGet_countInc_self (m : List (Nat × Nat)) (k : Nat) :
    countGet (countInc m k) k = countGet m k + 1 := by
  induction m with
  | nil => simp [countGet, countInc, List.find?]
  | cons p rest ih =>
    by_cases h : p.1 == k
    · have hk : p.1 = k := by simpa using h
      simp [countGet, countInc, h, hk, List.find?]
    · simpa [countGet, countInc, h, List.find?] using ih

theorem monthSpent_trackSpending (userId : Nat) (month : String) (amount : Int)
    (s : AAState) :
    monthSpent (trackSpending userId month amount s).monthlySpending userId month
      = monthSpent s.monthlySpending userId month + amount := by
  simp [trackSpending, monthSpent, mapGet_mapSet_self]

theorem executeCatch_activeActions (emitType : String) (action : AutoAction)
    (domain errMsg : String) (s : AAState) :
    (executeCatch emitType action domain errMsg s).activeActions = s.activeActions := by
  simp [executeCatch]

theorem executeCatch_monthlySpending (emitType : String) (action : AutoAction)
    (domain errMsg : String) (s : AAState) :
    (executeCatch emitType action domain errMsg s).monthlySpending = s.monthlySpending := by
  simp [executeCatch]

theorem purchaseBody_activeActions (action : AutoAction) (ev : AutoSaleEvent)
    (userRes : Except String (Option User)) (signerRes : Except String Unit)
    (buyRes : Except String TxResult) (month : String) (s : AAState) :
    (purchaseBody action ev userRes signerRes buyRes month s).activeActions
      = s.activeActions := by
  by_cases h : checkSpendingLimits userRes action.userId month ev.price s.monthlySpending
  · cases signerRes with
    | error e => simp [purchaseBody, h, executeCatch]
    | ok w =>
      cases buyRes with
      | error e => simp [purchaseBody, h, executeCatch]
      | ok tx => simp [purchaseBody, h, trackSpending]
  · simp [purchaseBody, h, executeCatch]

theorem renewalBody_activeActions (action : AutoAction) (ev : AutoExpiryEvent)
    (userRes : Except String (Option User)) (signerRes : Except String Unit)
    (renewRes : Except String TxResult) (month : String) (s : AAState) :
    (renewalBody action ev userRes signerRes renewRes month s).activeActions
      = s.activeActions := by
  by_cases h : checkSpendingLimits userRes action.userId month action.maxAmount s.monthlySpending
  · cases signerRes with
    | error e => simp [renewalBody, h, executeCatch]
    | ok w =>
      cases renewRes with
      | error e => simp [renewalBody, h, executeCatch]
      | ok tx => simp [renewalBody, h, trackSpending]
  · simp [renewalBody, h, executeCatch]

theorem sendAlert_triggerCounts (userRes : Option User) (notifierOk dbOk : Bool)
    (d : AlertData) (s : ASState) :
    (sendAlert userRes notifierOk dbOk d s).triggerCounts = s.triggerCounts := by
  unfold sendAlert
  cases userRes with
  | none => rfl
  | some u =>
    simp only
    split
    · rfl
    · split
      · rfl
      · split
        · split <;> rfl
        · split <;> rfl

theorem handleExpiryAlert_processedEvents (users : List User) (notifierOk dbOk : Bool)
    (ev : ExpiryEvent) (s : ASState) (a : AlertRow) :
    (handleExpiryAlert users notifierOk dbOk ev s a).processedEvents = s.processedEvents := by
  unfold handleExpiryAlert sendAlert
  split
  · cases h : getUserById users a.userId with
    | none => simp
    | some u =>
      simp only
      split
      · simp
      · split
        · simp
        · split
          · split <;> simp
          · split <;> simp
  · rfl

theorem foldl_handleExpiryAlert_processedEvents (users : List User)
    (notifierOk dbOk : Bool) (ev : ExpiryEvent) (s : ASState) (l : List AlertRow) :
    (l.foldl (handleExpiryAlert users notifierOk dbOk ev) s).processedEvents
      = s.processedEvents := by
  induction l generalizing s with
  | nil => rfl
  | cons a rest ih =>
    rw [List.foldl_cons, ih (handleExpiryAlert users notifierOk dbOk ev s a)]
    exact handleExpiryAlert_processedEvents users notifierOk dbOk ev s a

theorem accumFold_shift (step : AAState → α → AAState × RuleOutcome) (s : AAState)
    (o : List RuleOutcome) (l : List α) :
    l.foldl (fun acc a => ((step acc.1 a).1, acc.2 ++ [(step acc.1 a).2])) (s, o)
      = ((accumFold step s l).1, o ++ (accumFold step s l).2) := by
  induction l generalizing s o with
  | nil => simp [accumFold]
  | cons a rest ih =>
    simp only [accumFold, List.foldl_cons]
    rw [ih (step s a).1 (o ++ [(step s a).2]), ih (step s a).1 ([] ++ [(step s a).2])]
    simp

theorem accumFold_append (step : AAState → α → AAState × RuleOutcome) (s : AAState)
    (l1 l2 : List α) :
    accumFold step s (l1 ++ l2)
      = ((accumFold step (accumFold step s l1).1 l2).1,
         (accumFold step s l1).2 ++ (accumFold step (accumFold step s l1).1 l2).2) := by
  have h := accumFold_shift step (accumFold step s l1).1 (accumFold step s l1).2 l2
  calc accumFold step s (l1 ++ l2)
      = l2.foldl (fun acc a => ((step acc.1 a).1, acc.2 ++ [(step acc.1 a).2]))
          ((accumFold step s l1).1, (accumFold step s l1).2) := by
        simp [accumFold, List.foldl_append]
    _ = _ := h

theorem accumFold_length (step : AAState → α → AAState × RuleOutcome) (s : AAState)
    (l : List α) : (accumFold step s l).2.length = l.length := by
  induction l generalizing s with
  | nil => rfl
  | cons a rest ih =>
    simp only [accumFold, List.foldl_cons]
    rw [accumFold_shift step (step s a).1 ([] ++ [(step s a).2]) rest]
    simp [ih]

theorem cleanupProcessed_contains_last (l : List String) (a : String) :
    (cleanupProcessed (l ++ [a])).contains a = true := by
  unfold cleanupProcessed
  split
  · have hle : (l ++ [a]).length - 900 ≤ l.length := by
      simp only [List.length_append, List.length_singleton]
      omega
    rw [List.drop_append_of_le_length hle]
    simp [List.contains, List.elem_iff]
  · simp [List.contains, List.elem_iff]

theorem processExpiryEvent_of_seen (table : List AlertRow) (users : List User)
    (notifierOk dbOk : Bool) (ev : ExpiryEvent) (s : ASState)
    (h : s.processedEvents.contains (ev.txHash ++ "-expiry") = true) :
    processExpiryEvent table users notifierOk dbOk ev s = s := by
  have hm : ev.txHash ++ "-expiry" ∈ s.processedEvents := by
    simpa [List.contains, List.elem_iff] using h
  simp [processExpiryEvent, hm]

/-! ### Claim theorems -/

/-- Claim C2: at most one in-flight lock per (rule id, domain) key.
The check-and-set prefix of both execute functions is synchronous
(atomic on the single-threaded event loop): a call arriving while the
lock for its key is held returns from the `try` block leaving the
state completely unchanged — nothing is logged, no failed record or
failure event is produced, no ledger commit — so the skipped attempt
is not treated as an execution failure.  For two near-simultaneous
qualifying events with the same key: the first call's atomic
check-and-set succeeds, a second call on the resulting in-flight state
is exactly such a no-op skip, and the first call alone proceeds to the
execution body — exactly one execution goes ahead. -/
theorem action_lock_exclusive (action : AutoAction) (ev : AutoSaleEvent)
    (rv : AutoExpiryEvent) (userRes userRes2 : Except String (Option User))
    (signerRes signerRes2 : Except String Unit)
    (buyRes buyRes2 renewRes : Except String TxResult)
    (month month2 : String) (now now2 : Nat) (s : AAState) :
    (locksHas s.activeActions (purchaseLockKey action ev.domain) = true →
      executeAutoPurchase action ev userRes signerRes buyRes month now s
        = (s, JsOutcome.refErrorActionKey)) ∧
    (locksHas s.activeActions (renewalLockKey action rv.domain) = true →
      executeAutoRenewal action rv userRes signerRes renewRes month now s
        = (s, JsOutcome.refErrorActionKey)) ∧
    (locksHas s.activeActions (purchaseLockKey action ev.domain) = false →
      (tryAcquire (purchaseLockKey action ev.domain) now s).1 = true ∧
      executeAutoPurchase action ev userRes2 signerRes2 buyRes2 month2 now2
          (tryAcquire (purchaseLockKey action ev.domain) now s).2
        = ((tryAcquire (purchaseLockKey action ev.domain) now s).2,
           JsOutcome.refErrorActionKey) ∧
      executeAutoPurchase action ev userRes signerRes buyRes month now s
        = (purchaseBody action ev userRes signerRes buyRes month
            (tryAcquire (purchaseLockKey action ev.domain) now s).2,
           JsOutcome.refErrorActionKey)) := by
  refine ⟨fun h => ?_, fun h => ?_, fun h => ⟨?_, ?_, ?_⟩⟩
  · simp [executeAutoPurchase, tryAcquire, h]
  · simp [executeAutoRenewal, tryAcquire, h]
  · simp [tryAcquire, h]
  · have hskip : ∀ st : AAState,
        locksHas st.activeActions (purchaseLockKey action ev.domain) = true →
        executeAutoPurchase action ev userRes2 signerRes2 buyRes2 month2 now2 st
          = (st, JsOutcome.refErrorActionKey) := by
      intro st hst
      simp [executeAutoPurchase, tryAcquire, hst]
    exact hskip _ (by simp [tryAcquire, h, locksHas_locksSet_self])
  · simp [executeAutoPurchase, tryAcquire, h]

/-- Claim C2 (witness): with the purchase lock for rule 7 on `nft.ape`
in flight, the arriving attempt returns with the state untouched; from
a lock-free state the first attempt's check-and-set acquires the lock
and a second attempt on the in-flight state is a no-op. -/
theorem action_lock_exclusive_witness :
    executeAutoPurchase buyRule listedApe (Except.ok (some premiumOwner)) getUserSigner
        (Except.ok ⟨"0xtx"⟩) "2026-10" 6 lockedPurchase
      = (lockedPurchase, JsOutcome.refErrorActionKey) ∧
    (tryAcquire (purchaseLockKey buyRule listedApe.domain) 5 spentOneFifty).1 = true ∧
    executeAutoPurchase buyRule listedApe (Except.ok (some premiumOwner)) getUserSigner
        (Except.ok ⟨"0xtx"⟩) "2026-10" 6
        (tryAcquire (purchaseLockKey buyRule listedApe.domain) 5 spentOneFifty).2
      = ((tryAcquire (purchaseLockKey buyRule listedApe.domain) 5 spentOneFifty).2,
         JsOutcome.refErrorActionKey) := by
  have h1 := (action_lock_exclusive buyRule listedApe renewApe
    (Except.ok (some premiumOwner)) (Except.ok (some premiumOwner)) getUserSigner
    getUserSigner (Except.ok ⟨"0xtx"⟩) (Except.ok ⟨"0xtx"⟩) (Except.ok ⟨"0xtx"⟩)
    "2026-10" "2026-10" 6 6 lockedPurchase).1 (by decide)
  have h3 := (action_lock_exclusive buyRule listedApe renewApe
    (Except.ok (some premiumOwner)) (Except.ok (some premiumOwner)) getUserSigner
    getUserSigner (Except.ok ⟨"0xtx"⟩) (Except.ok ⟨"0xtx"⟩) (Except.ok ⟨"0xtx"⟩)
    "2026-10" "2026-10" 5 6 spentOneFifty).2.2 (by decide)
  exact ⟨h1, h3.1, h3.2.1⟩

/-- Claim C3 (code bug): lock release.  In both execute functions
`actionKey` is declared with `const` inside the `try` block but
referenced in the `finally` block, where it is not in scope; the
`finally` clause therefore raises `ReferenceError: actionKey is not
defined` before its `delete` call runs.  In every terminal path —
success, entitlement or eligibility or spending-limit abort, submission
failure (all covered here by quantifying over the collaborator
outcomes) — the freshly installed lock is still present when the call
returns, and the call rejects with that `ReferenceError`; the key stays
blocked until `cleanupStaleActions` clears it an hour later. -/
theorem lock_never_released (action : AutoAction) (ev : AutoSaleEvent)
    (rv : AutoExpiryEvent) (userRes : Except String (Option User))
    (signerRes : Except String Unit) (buyRes renewRes : Except String TxResult)
    (month : String) (now : Nat) (s : AAState) :
    (locksHas s.activeActions (purchaseLockKey action ev.domain) = false →
      locksHas (executeAutoPurchase action ev userRes signerRes buyRes month now
          s).1.activeActions (purchaseLockKey action ev.domain) = true ∧
      (executeAutoPurchase action ev userRes signerRes buyRes month now s).2
        = JsOutcome.refErrorActionKey) ∧
    (locksHas s.activeActions (renewalLockKey action rv.domain) = false →
      locksHas (executeAutoRenewal action rv userRes signerRes renewRes month now
          s).1.activeActions (renewalLockKey action rv.domain) = true ∧
      (executeAutoRenewal action rv userRes signerRes renewRes month now s).2
        = JsOutcome.refErrorActionKey) := by
  constructor
  · intro h
    constructor
    · simp [executeAutoPurchase, tryAcquire, h, purchaseBody_activeActions,
        locksHas_locksSet_self]
    · simp [executeAutoPurchase, tryAcquire, h]
  · intro h
    constructor
    · simp [executeAutoRenewal, tryAcquire, h, renewalBody_activeActions,
        locksHas_locksSet_self]
    · simp [executeAutoRenewal, tryAcquire, h]

/-- Claim C3 (witness): the spending-limit abort (cap 200, committed
150, price 60) — an abort between steps 1 and 4, where the claim
demands release — leaves the lock for `purchase_7_nft.ape` in place and
the call rejects with the `ReferenceError`. -/
theorem lock_never_released_witness :
    locksHas (executeAutoPurchase buyRule listedSixty (Except.ok (some premiumOwner))
        getUserSigner (Except.ok ⟨"0xtx"⟩) "2026-10" 6 spentOneFifty).1.activeActions
      (purchaseLockKey buyRule listedSixty.domain) = true ∧
    (executeAutoPurchase buyRule listedSixty (Except.ok (some premiumOwner))
        getUserSigner (Except.ok ⟨"0xtx"⟩) "2026-10" 6 spentOneFifty).2
      = JsOutcome.refErrorActionKey := by
  exact (lock_never_released buyRule listedSixty renewApe (Except.ok (some premiumOwner))
    getUserSigner (Except.ok ⟨"0xtx"⟩) (Except.ok ⟨"0xtx"⟩) "2026-10" 6
    spentOneFifty).1 (by decide)

/-- Claim C5 (amended): processing the same expiry event twice is
idempotent on the whole dispatcher state: the dedup key
`txHash + "-expiry"` is in the window after the first call (a freshly
inserted key survives the window cleanup, which keeps the most recent
900 keys), so the second call returns without side effects — no
dispatch, no delivery log, no trigger-count change.  The second call
therefore adds no dispatches; the double dispatch of the counterexample
happens entirely within the first call. -/
theorem process_expiry_event_idempotent (table : List AlertRow) (users : List User)
    (notifierOk dbOk : Bool) (ev : ExpiryEvent) (s : ASState) :
    processExpiryEvent table users notifierOk dbOk ev
        (processExpiryEvent table users notifierOk dbOk ev s)
      = processExpiryEvent table users notifierOk dbOk ev s := by
  by_cases h : s.processedEvents.contains (ev.txHash ++ "-expiry")
  · have h1 := processExpiryEvent_of_seen table users notifierOk dbOk ev s h
    rw [h1]
    exact h1
  · have h0 : s.processedEvents.contains (ev.txHash ++ "-expiry") = false := by
      simpa using h
    have hc : (processExpiryEvent table users notifierOk dbOk ev
        s).processedEvents.contains (ev.txHash ++ "-expiry") = true := by
      simp only [processExpiryEvent, h0, Bool.false_eq_true, if_false]
      rw [foldl_handleExpiryAlert_processedEvents]
      exact cleanupProcessed_contains_last _ _
    exact processExpiryEvent_of_seen table users notifierOk dbOk ev _ hc

/-- Claim C7: the tier frequency gate.  For an active rule owner on the
free tier, an alert whose urgency is not `critical` is not delivered
immediately — `sendAlert` returns with the dispatcher state unchanged,
so there is no Notifier emit (such alerts are meant for the daily
digest; the digest generator itself is a stub outside this claim's
gate) — while a `critical` alert is emitted immediately; for basic and
premium owners every alert reaching the gate is emitted in real time. -/
theorem tier_frequency_gate (u : User) (d : AlertData) (s : ASState) (dbOk : Bool)
    (hact : u.isActive = true) :
    (u.subscriptionTier = "free" → d.urgency ≠ some "critical" →
      ∀ notifierOk, sendAlert (some u) notifierOk dbOk d s = s) ∧
    (u.subscriptionTier = "free" → d.urgency = some "critical" →
      (sendAlert (some u) true dbOk d s).dispatches = s.dispatches ++ [d]) ∧
    (u.subscriptionTier = "basic" ∨ u.subscriptionTier = "premium" →
      (sendAlert (some u) true dbOk d s).dispatches = s.dispatches ++ [d]) := by
  refine ⟨fun ht hu notifierOk => ?_, fun ht hu => ?_, fun ht => ?_⟩
  · have hne : (d.urgency == some "critical") = false := beq_eq_false_iff_ne.mpr hu
    have hg : checkAlertFrequency u d.urgency = false := by
      simp [checkAlertFrequency, ht, hne]
    simp [sendAlert, hact, hg]
  · have hg : checkAlertFrequency u d.urgency = true := by
      simp [checkAlertFrequency, ht, hu]
    cases dbOk <;> simp [sendAlert, hact, hg]
  · have hg : checkAlertFrequency u d.urgency = true := by
      rcases ht with h | h <;> simp [checkAlertFrequency, h]
    cases dbOk <;> simp [sendAlert, hact, hg]

/-- Claim C7 (witness): the free owner's medium-urgency alert changes
nothing; the same owner's critical alert is dispatched; a basic owner's
medium-urgency alert is dispatched. -/
theorem tier_frequency_gate_witness :
    sendAlert (some freeOwner) true true (expiryAlertData freeUserAlert mediumExpiring)
        asInit = asInit ∧
    (sendAlert (some freeOwner) true true (expiryAlertData freeUserAlert criticalExpiring)
        asInit).dispatches
      = asInit.dispatches ++ [expiryAlertData freeUserAlert criticalExpiring] ∧
    (sendAlert (some basicOwner) true true (expiryAlertData basicUserAlert mediumExpiring)
        asInit).dispatches
      = asInit.dispatches ++ [expiryAlertData basicUserAlert mediumExpiring] := by
  refine ⟨(tier_frequency_gate freeOwner _ asInit true rfl).1 rfl (by decide) true,
    (tier_frequency_gate freeOwner _ asInit true rfl).2.1 rfl rfl,
    (tier_frequency_gate basicOwner _ asInit true rfl).2.2 (Or.inl rfl)⟩

/-- Claim C8 (amended): `triggerCount` is incremented by the event
processor whenever the rule's conditions pass, regardless of delivery:
`processExpiryEvent` awaits `sendAlert` — which swallows every skip and
failure — and then increments unconditionally.  On a Notifier hand-off
failure nothing is dispatched and a delivery-log row with status
`failed` is appended (and the count still increments). -/
theorem trigger_count_increment_unconditional (users : List User)
    (notifierOk dbOk : Bool) (ev : ExpiryEvent) (s : ASState) (a : AlertRow)
    (hc : shouldTriggerExpiryAlert a.conditions ev = true) :
    countGet (handleExpiryAlert users notifierOk dbOk ev s a).triggerCounts a.id
      = countGet s.triggerCounts a.id + 1 ∧
    (∀ u, getUserById users a.userId = some u → u.isActive = true →
      checkAlertFrequency u ev.urgency = true → notifierOk = false → dbOk = true →
      (handleExpiryAlert users notifierOk dbOk ev s a).dispatches = s.dispatches ∧
      (handleExpiryAlert users notifierOk dbOk ev s a).alertLogs
        = s.alertLogs ++ [AlertLogRow.mk a.id a.userId "expiry" "failed" a.platform]) := by
  constructor
  · simp [handleExpiryAlert, hc, sendAlert_triggerCounts, countGet_countInc_self]
  · intro u hu hact hg hn hdb
    subst hn
    subst hdb
    constructor <;> simp [handleExpiryAlert, hc, hu, sendAlert, hact, expiryAlertData, hg]

/-- Claim C8 (amended, witness): a premium owner's rule with a failing
Notifier hand-off: nothing dispatched, a `failed` log row appended, and
`triggerCount` incremented all the same. -/
theorem trigger_count_increment_unconditional_witness :
    countGet (handleExpiryAlert [premiumOwner] false true expiringApe asInit
        patternEqAlert).triggerCounts 1 = countGet asInit.triggerCounts 1 + 1 ∧
    (handleExpiryAlert [premiumOwner] false true expiringApe asInit
        patternEqAlert).dispatches = asInit.dispatches ∧
    (handleExpiryAlert [premiumOwner] false true expiringApe asInit
        patternEqAlert).alertLogs
      = asInit.alertLogs ++ [AlertLogRow.mk 1 1 "expiry" "failed" "telegram"] := by
  have h := trigger_count_increment_unconditional [premiumOwner] false true expiringApe
    asInit patternEqAlert (by decide)
  have h2 := h.2 premiumOwner (by decide) rfl (by decide) rfl rfl
  exact ⟨h.1, h2.1, h2.2⟩

/-- Claim C9: isolation of rule and event handling.  Every embedded
dispatch loop is a total function — each per-rule body, including the
ones whose JavaScript counterpart throws (the `ReferenceError` of every
execution, the `TypeError` of the missing `shouldExecuteAutoBid`), is
caught by the per-rule `try/catch` and contributes exactly one recorded
outcome — so the loop over `l1 ++ l2` always processes all of `l2`
after `l1`, whatever happened in `l1`, and produces one outcome per
rule; the Alert Dispatcher's per-alert loop decomposes the same way.
Event-level handlers are likewise total (their outer `try/catch`
appears in the embedding as total functions into states, never into
errors), so one event cannot halt subsequent events. -/
theorem event_rule_isolation (users : List User) (ev : AutoExpiryEvent)
    (l1 l2 : List AutoAction) (signerRes : Except String Unit)
    (renewRes : Except String TxResult) (month : String) (now : Nat) (s : AAState)
    (notifierOk dbOk : Bool) (aev : ExpiryEvent) (t : ASState)
    (m1 m2 : List AlertRow) :
    (checkAutoRenewal users ev (l1 ++ l2) signerRes renewRes month now s).2.length
      = l1.length + l2.length ∧
    checkAutoRenewal users ev (l1 ++ l2) signerRes renewRes month now s
      = ((checkAutoRenewal users ev l2 signerRes renewRes month now
            (checkAutoRenewal users ev l1 signerRes renewRes month now s).1).1,
         (checkAutoRenewal users ev l1 signerRes renewRes month now s).2
           ++ (checkAutoRenewal users ev l2 signerRes renewRes month now
                (checkAutoRenewal users ev l1 signerRes renewRes month now s).1).2) ∧
    (checkAutoBid users (l1 ++ l2) s).2.length = l1.length + l2.length ∧
    List.foldl (handleExpiryAlert users notifierOk dbOk aev) t (m1 ++ m2)
      = List.foldl (handleExpiryAlert users notifierOk dbOk aev)
          (List.foldl (handleExpiryAlert users notifierOk dbOk aev) t m1) m2 := by
  refine ⟨?_, ?_, ?_, ?_⟩
  · simp [checkAutoRenewal, accumFold_length]
  · simp only [checkAutoRenewal]
    exact accumFold_append _ _ _ _
  · simp [checkAutoBid, accumFold_length]
  · rw [List.foldl_append]

/-- Claim C1: the monthly spending cap.  With the owner lookup
returning `u`, an auto-purchase whose price would push the month's
committed spend past the cap (`monthlySpendLimit || 200`) is rejected
with the `Monthly spending limit exceeded` error — a failed log row,
no ledger commit, no `executionCount` bump — whatever the submission
collaborator would have answered; an attempt within the cap, when the
signer and submission succeed, commits exactly the price to the ledger
and bumps `executionCount`; and a ledger at or under the cap stays at
or under the cap after any attempt. -/
theorem auto_purchase_spending_cap (action : AutoAction) (ev : AutoSaleEvent) (u : User)
    (signerRes : Except String Unit) (buyRes : Except String TxResult)
    (month : String) (now : Nat) (s : AAState)
    (hlock : locksHas s.activeActions (purchaseLockKey action ev.domain) = false) :
    (monthSpent s.monthlySpending action.userId month + ev.price > effectiveMonthlyLimit u →
      (executeAutoPurchase action ev (Except.ok (some u)) signerRes buyRes month now
          s).1.monthlySpending = s.monthlySpending ∧
      (executeAutoPurchase action ev (Except.ok (some u)) signerRes buyRes month now
          s).1.actionLogs = s.actionLogs ++
        [AALogRow.mk action.id action.userId ev.domain 0 none "failed"
          (some "Monthly spending limit exceeded")] ∧
      countGet (executeAutoPurchase action ev (Except.ok (some u)) signerRes buyRes month now
          s).1.executionCounts action.id = countGet s.executionCounts action.id) ∧
    (monthSpent s.monthlySpending action.userId month + ev.price ≤ effectiveMonthlyLimit u →
      ∀ tx, signerRes = Except.ok () → buyRes = Except.ok tx →
      monthSpent (executeAutoPurchase action ev (Except.ok (some u)) signerRes buyRes month now
          s).1.monthlySpending action.userId month
        = monthSpent s.monthlySpending action.userId month + ev.price ∧
      countGet (executeAutoPurchase action ev (Except.ok (some u)) signerRes buyRes month now
          s).1.executionCounts action.id = countGet s.executionCounts action.id + 1) ∧
    (monthSpent s.monthlySpending action.userId month ≤ effectiveMonthlyLimit u →
      monthSpent (executeAutoPurchase action ev (Except.ok (some u)) signerRes buyRes month now
          s).1.monthlySpending action.userId month ≤ effectiveMonthlyLimit u) := by
  refine ⟨fun hgt => ?_, fun hle tx hs hb => ?_, fun hbound => ?_⟩
  · have hch : checkSpendingLimits (Except.ok (some u)) action.userId month ev.price
        s.monthlySpending = false := by
      simp only [checkSpendingLimits]
      exact decide_eq_false (not_le.mpr hgt)
    refine ⟨?_, ?_, ?_⟩ <;>
      simp [executeAutoPurchase, tryAcquire, hlock, purchaseBody, hch, executeCatch]
  · subst hs
    subst hb
    have hch : checkSpendingLimits (Except.ok (some u)) action.userId month ev.price
        s.monthlySpending = true := by
      simp only [checkSpendingLimits]
      exact decide_eq_true hle
    constructor
    · simp [executeAutoPurchase, tryAcquire, hlock, purchaseBody, hch,
        monthSpent_trackSpending]
    · simp [executeAutoPurchase, tryAcquire, hlock, purchaseBody, hch, trackSpending,
        countGet_countInc_self]
  · by_cases hch : checkSpendingLimits (Except.ok (some u)) action.userId month ev.price
        s.monthlySpending
    · have hle2 : monthSpent s.monthlySpending action.userId month + ev.price
          ≤ effectiveMonthlyLimit u := by
        simp only [checkSpendingLimits] at hch
        exact of_decide_eq_true hch
      cases signerRes with
      | error e =>
        simpa [executeAutoPurchase, tryAcquire, hlock, purchaseBody, hch, executeCatch]
          using hbound
      | ok w =>
        cases buyRes with
        | error e =>
          simpa [executeAutoPurchase, tryAcquire, hlock, purchaseBody, hch, executeCatch]
            using hbound
        | ok tx =>
          simpa [executeAutoPurchase, tryAcquire, hlock, purchaseBody, hch,
            monthSpent_trackSpending] using hle2
    · have hch2 : checkSpendingLimits (Except.ok (some u)) action.userId month ev.price
          s.monthlySpending = false := by simpa using hch
      simpa [executeAutoPurchase, tryAcquire, hlock, purchaseBody, hch2, executeCatch]
        using hbound

/-- Claim C1 (witness): monthly cap 200, committed 150.  The auto-buy
of 60 is rejected with the spending-limit error and the ledger keeps
150; the auto-buy of 40 (with a cooperative signer and submission)
commits, raising the month's total to 190 and `executionCount` to 1. -/
theorem auto_purchase_spending_cap_witness :
    ((executeAutoPurchase buyRule listedSixty (Except.ok (some premiumOwner)) getUserSigner
        (Except.ok ⟨"0xtx"⟩) "2026-10" 6 spentOneFifty).1.monthlySpending
      = spentOneFifty.monthlySpending ∧
     (executeAutoPurchase buyRule listedSixty (Except.ok (some premiumOwner)) getUserSigner
        (Except.ok ⟨"0xtx"⟩) "2026-10" 6 spentOneFifty).1.actionLogs
      = spentOneFifty.actionLogs ++
        [AALogRow.mk 7 1 "nft.ape" 0 none "failed" (some "Monthly spending limit exceeded")]) ∧
    (monthSpent (executeAutoPurchase buyRule listedForty (Except.ok (some premiumOwner))
        (Except.ok ()) (Except.ok ⟨"0xtx"⟩) "2026-10" 6 spentOneFifty).1.monthlySpending
        1 "2026-10" = 190 ∧
     countGet (executeAutoPurchase buyRule listedForty (Except.ok (some premiumOwner))
        (Except.ok ()) (Except.ok ⟨"0xtx"⟩) "2026-10" 6 spentOneFifty).1.executionCounts 7
      = 1) := by
  have hrej := (auto_purchase_spending_cap buyRule listedSixty premiumOwner getUserSigner
    (Except.ok ⟨"0xtx"⟩) "2026-10" 6 spentOneFifty (by decide)).1 (by decide)
  have hok := (auto_purchase_spending_cap buyRule listedForty premiumOwner
    (Except.ok ()) (Except.ok ⟨"0xtx"⟩) "2026-10" 6 spentOneFifty (by decide)).2.1
    (by decide) ⟨"0xtx"⟩ rfl rfl
  exact ⟨⟨hrej.1, hrej.2.1⟩, hok.1.trans (by decide), hok.2.trans (by decide)⟩

/-- Claim C4 (code bug): the end-to-end purchase scenario — buy rule
with `maxPrice 50`, `domainPatterns ["*.ape"]`, `maxAmount 50`; `Listed`
event for `nft.ape` at 45; premium owner; empty ledger — passes the
condition matcher, but the execution cannot succeed: the shipped
`getUserSigner` unconditionally throws, so the attempt takes the
failure path.  The ledger stays empty (not incremented by 45),
`executionCount` stays 0 (not incremented by 1), the only log row is a
failed one carrying the signer error, an `autoActionFailed` (not
`autoActionExecuted`) event is emitted, and the call itself then
rejects with the `finally`-block `ReferenceError`. -/
theorem premium_purchase_scenario_fails :
    shouldExecuteAutoPurchase buyRule listedApe = true ∧
    (executeAutoPurchase buyRule listedApe (Except.ok (some premiumOwner)) getUserSigner
        (Except.ok ⟨"0xtx"⟩) "2026-10" 5 aaInit).1.monthlySpending = [] ∧
    countGet (executeAutoPurchase buyRule listedApe (Except.ok (some premiumOwner)) getUserSigner
        (Except.ok ⟨"0xtx"⟩) "2026-10" 5 aaInit).1.executionCounts 7 = 0 ∧
    (executeAutoPurchase buyRule listedApe (Except.ok (some premiumOwner)) getUserSigner
        (Except.ok ⟨"0xtx"⟩) "2026-10" 5 aaInit).1.actionLogs =
      [AALogRow.mk 7 1 "nft.ape" 0 none "failed"
        (some "Wallet integration not implemented - requires user signature")] ∧
    (executeAutoPurchase buyRule listedApe (Except.ok (some premiumOwner)) getUserSigner
        (Except.ok ⟨"0xtx"⟩) "2026-10" 5 aaInit).1.emitted =
      [AAEvent.failed "purchase" 1 "nft.ape"
        "Wallet integration not implemented - requires user signature"] ∧
    (executeAutoPurchase buyRule listedApe (Except.ok (some premiumOwner)) getUserSigner
        (Except.ok ⟨"0xtx"⟩) "2026-10" 5 aaInit).2 = JsOutcome.refErrorActionKey := by
  exact ⟨by decide, by decide, by decide, by decide, by decide, by decide⟩

/-- Claim C6 (counterexample): the claim fails on both compiled
matchers.  In `getAlertsByPattern` the stored pattern is converted with
SQL-LIKE rules (`%`/`_`), not `*`: `*.ape` survives as a leading `*`,
the regex fails to compile and the rule matches nothing, so `*.ape`
does not match `web3.ape` there.  In the condition matcher
(`shouldTriggerSaleAlert` / `shouldExecuteAutoPurchase`) the compiled
regex is not anchored: `*.ape` matches `web3.ape.extra` as a substring,
which an `^...$`-anchored matcher would reject. -/
theorem pattern_wildcard_counterexample :
    likeTest "*.ape" "web3.ape" = false ∧ starTest "*.ape" "web3.ape.extra" = true := by
  exact ⟨by decide, by decide⟩

/-- Claim C6 (amended): what the two matchers actually implement.
`getAlertsByPattern` is anchored and case-insensitive but uses SQL-LIKE
wildcards — `%` is "zero or more characters", `_` one character, and a
pattern with a bare `*` fails to compile and matches nothing — so the
claim's examples hold there only with `%` in place of `*`.  The
condition matcher treats `*` as "zero or more characters" and is
case-insensitive, and on it the claim's concrete examples all hold, but
it is a substring (unanchored) match. -/
theorem pattern_matching_as_implemented :
    (likeTest "*.ape" "web3.ape" = false ∧ likeTest "*.ape" "x.ape" = false ∧
     likeTest "a*c.ape" "abc.ape" = false) ∧
    (likeTest "%.ape" "web3.ape" = true ∧ likeTest "%.ape" "x.ape" = true ∧
     likeTest "%.ape" "web3.xyz" = false ∧ likeTest "%.APE" "WEB3.ape" = true ∧
     likeTest "a%c.ape" "abc.ape" = true ∧ likeTest "a%c.ape" "ac.ape" = true ∧
     likeTest "%.ape" "web3.ape.extra" = false) ∧
    (starTest "*.ape" "web3.ape" = true ∧ starTest "*.ape" "x.ape" = true ∧
     starTest "*.ape" "web3.xyz" = false ∧ starTest "*.APE" "WEB3.ape" = true ∧
     starTest "a*c.ape" "abc.ape" = true ∧ starTest "a*c.ape" "ac.ape" = true ∧
     starTest "*.ape" "web3.ape.extra" = true) := by
  decide

/-- Claim C5 (counterexample): an active rule whose `domainPattern` is
the literal event domain is returned both by the direct query
(`domain = ? OR domainPattern = ?`) and by the pattern query, so the
first call already dispatches it twice; processing the same event twice
therefore yields two dispatches for that matching rule, not at most
one. -/
theorem dedup_dispatch_count_counterexample :
    ((processExpiryEvent [patternEqAlert] [premiumOwner] true true expiringApe
        (processExpiryEvent [patternEqAlert] [premiumOwner] true true expiringApe
          asInit)).dispatches.filter (fun d => d.alertId == 1)).length = 2 := by
  decide

/-- Claim C8 (counterexample): a free-tier owner's rule with a
medium-urgency event is skipped by the frequency gate — nothing is
dispatched and nothing is logged — yet `triggerCount` is still
incremented, because `processExpiryEvent` increments it after
`sendAlert` returns and `sendAlert` swallows the skip. -/
theorem trigger_count_without_delivery_counterexample :
    (processExpiryEvent [freeUserAlert] [freeOwner] true true mediumExpiring asInit).dispatches
        = [] ∧
    (processExpiryEvent [freeUserAlert] [freeOwner] true true mediumExpiring asInit).alertLogs
        = [] ∧
    countGet (processExpiryEvent [freeUserAlert] [freeOwner] true true mediumExpiring
        asInit).triggerCounts 9 = 1 := by
  exact ⟨by decide, by decide, by decide⟩

/-- Claim C10: the spending-limit check fails closed.  When the owner
lookup inside `checkSpendingLimits` throws, or returns no user (so that
reading `monthlySpendLimit` raises a `TypeError`), the `catch` branch
returns `false`; `executeAutoPurchase` then aborts with the
spending-limit error and commits nothing to the ledger. -/
theorem spending_check_fails_closed (userId : Nat) (month : String) (amount : Int)
    (spending : List (String × Int)) (msg : String) (action : AutoAction)
    (ev : AutoSaleEvent) (signerRes : Except String Unit)
    (buyRes : Except String TxResult) (now : Nat) (s : AAState) :
    checkSpendingLimits (Except.error msg) userId month amount spending = false ∧
    checkSpendingLimits (Except.ok none) userId month amount spending = false ∧
    (locksHas s.activeActions (purchaseLockKey action ev.domain) = false →
      (executeAutoPurchase action ev (Except.error msg) signerRes buyRes month now
          s).1.monthlySpending = s.monthlySpending ∧
      (executeAutoPurchase action ev (Except.error msg) signerRes buyRes month now
          s).1.actionLogs = s.actionLogs ++
        [AALogRow.mk action.id action.userId ev.domain 0 none "failed"
          (some "Monthly spending limit exceeded")]) := by
  refine ⟨rfl, rfl, fun hlock => ?_⟩
  have hch : checkSpendingLimits (Except.error msg) action.userId month ev.price
      s.monthlySpending = false := rfl
  constructor
  · simp [executeAutoPurchase, tryAcquire, hlock, purchaseBody, hch, executeCatch]
  · simp [executeAutoPurchase, tryAcquire, hlock, purchaseBody, hch, executeCatch]

/-- Claim C10 (witness): the fail-closed rejection evaluated at the
end-to-end purchase inputs with a throwing owner lookup. -/
theorem spending_check_fails_closed_witness :
    checkSpendingLimits (Except.error "db down") 1 "2026-10" 45 [] = false ∧
    (executeAutoPurchase buyRule listedApe (Except.error "db down") getUserSigner
        (Except.ok ⟨"0xtx"⟩) "2026-10" 5 aaInit).1.monthlySpending = aaInit.monthlySpending := by
  refine ⟨(spending_check_fails_closed 1 "2026-10" 45 [] "db down" buyRule listedApe
    getUserSigner (Except.ok ⟨"0xtx"⟩) 5 aaInit).1, ?_⟩
  exact ((spending_check_fails_closed 1 "2026-10" 45 [] "db down" buyRule listedApe
    getUserSigner (Except.ok ⟨"0xtx"⟩) 5 aaInit).2.2 (by decide)).1

end DomainGuard
